import Mathlib

/-!
Shallow embedding of the EriBot threshold-driven alerting and remediation
orchestration loop, translated from `src/python_monitor/core/monitor.py`
(class `SystemMonitor`) and `src/python_monitor/clients/remediation.py`
(class `RemediationClient`).

Modelling conventions:
* Python floats carrying metric percentages are modelled as exact rationals
  (`ℚ`); configuration thresholds are `int` in `config/models.py` and are
  modelled as `ℤ`.
* `datetime` values are modelled by their ISO-8601 rendering (`String`),
  since the monitor only ever uses `timestamp.isoformat()`.
* The external collaborators (Slack client, remediation HTTP service,
  psutil/socket OS queries) are modelled as oracles: a stream of responses
  indexed by the number of calls made so far.  Each Slack send either
  returns a `Bool` or raises; each remediation call likewise.
* Python exceptions are modelled as data (`Exn`); a function that can let an
  exception escape returns `World × Option Exn` where `some e` means the
  exception `e` is propagating and the `World` is the state at that moment
  (Python exceptions do not roll back state mutations).
-/

namespace Eribot

/-- Message severities used by `SlackClient.send_message` and its wrappers. -/
inductive Severity where
  | info
  | warning
  | error
  | critical
  | success
deriving DecidableEq, Repr

/-- Python exception values relevant to the monitor, as data.

`remediationError`, `serviceUnavailableError`, `monitoringError` and
`slackError` model the classes of `python_monitor/utils/exceptions.py`
(subclasses of `ErioBotException`, which carry a `.message`).
`clientRemediationError`, `clientServiceUnavailableError` and
`clientTimeoutError` model the distinct, plain-`Exception` classes defined
locally in `python_monitor/clients/remediation.py`; these are *not* caught
by the `except RemediationError` / `except ServiceUnavailableError` clauses
of `SystemMonitor._trigger_remediation`, which name the `utils.exceptions`
classes. -/
inductive Exn where
  | monitoringError (msg : String)
  | remediationError (msg : String)
  | serviceUnavailableError (msg : String)
  | slackError (msg : String)
  | clientRemediationError (msg : String)
  | clientServiceUnavailableError (msg : String)
  | clientTimeoutError (op : String) (timeout : ℤ)
  | other (msg : String)
deriving DecidableEq, Repr

/-- Python `str(e)`.  For `ErioBotException` subclasses without details this
is the message; for the plain one-argument client exceptions it is the single
argument; for `EriTimeoutError('remediation', timeout)` (two positional
arguments) Python renders the argument tuple. -/
def Exn.str : Exn → String
  | .monitoringError m => m
  | .remediationError m => m
  | .serviceUnavailableError m => m
  | .slackError m => m
  | .clientRemediationError m => m
  | .clientServiceUnavailableError m => m
  | .clientTimeoutError op t => "(\x27" ++ op ++ "\x27, " ++ toString t ++ ")"
  | .other m => m

/-- `SystemMetrics` dataclass of `core/monitor.py`. -/
structure SystemMetrics where
  cpu_percent : ℚ
  memory_percent : ℚ
  disk_percent : ℚ
  timestamp : String
  hostname : String
deriving DecidableEq, Repr

/-- `MonitoringConfig` dataclass of `config/models.py`: all four fields are
Python `int`. -/
structure MonitoringConfig where
  cpu_threshold : ℤ
  disk_threshold : ℤ
  memory_threshold : ℤ
  check_interval : ℤ
deriving DecidableEq, Repr

/-- `AlertContext` dataclass of `core/monitor.py`.  The `threshold` field is
annotated `float` in the source but always holds the `int` threshold taken
from `MonitoringConfig`, so it is modelled as `ℤ`. -/
structure AlertContext where
  metric_name : String
  current_value : ℚ
  threshold : ℤ
  metrics : SystemMetrics
deriving DecidableEq, Repr

/-- The remediation context dict built in `_trigger_remediation`:
`{hostname, timestamp (ISO), "<metric>_percent": value, threshold}`. -/
structure RemContext where
  hostname : String
  timestamp : String
  percentKey : String
  percentValue : ℚ
  threshold : ℤ
deriving DecidableEq, Repr

/-- One observable call to an external port. -/
inductive Event where
  | notifyCall (msg : String) (sev : Severity)
  | remediateCall (issueType : String) (ctx : RemContext)
deriving DecidableEq, Repr

/-- The mutable state of a `SystemMonitor` instance together with the record
of external calls made so far.  `nNotify` / `nRem` count the Slack and
remediation-client calls already issued (indexing the oracles), and `trace`
records them in order. -/
structure World where
  running : Bool
  schedJobs : ℕ
  threads : ℕ
  check_count : ℕ
  alert_count : ℕ
  remediation_count : ℕ
  nNotify : ℕ
  nRem : ℕ
  trace : List Event
deriving DecidableEq, Repr

/-- State of a freshly constructed `SystemMonitor` (counters zero, not
running, no calls made). -/
def World.init : World :=
  { running := false, schedJobs := 0, threads := 0, check_count := 0
    alert_count := 0, remediation_count := 0, nNotify := 0, nRem := 0
    trace := [] }

/-- Behaviour of the external ports: the `k`-th Slack send (any of
`send_message` / `send_alert` / `send_success_message` /
`send_error_message`) returns a `Bool` or raises, and likewise the `k`-th
`RemediationClient.trigger_remediation` call. -/
structure Oracle where
  notifyRes : ℕ → Except Exn Bool
  remediateRes : ℕ → Except Exn Bool

/-- Outcome of one poll of the operating system by `_gather_metrics`:
each of the four reads (`psutil.cpu_percent`, `psutil.virtual_memory`,
`psutil.disk_usage`, `socket.gethostname`) either yields a value or raises. -/
structure OsSample where
  cpu : Except String ℚ
  memory : Except String ℚ
  disk : Except String ℚ
  hostname : Except String String
  timestamp : String

/-- Floor of a rational, written with flooring integer division so that it
reduces inside the kernel. -/
def ratFloor (q : ℚ) : ℤ := q.num.fdiv q.den

/-- Round a rational to the nearest integer, ties to even — the rounding
Python applies when formatting with `:.1f` (on values the binary float
represents exactly). -/
def roundHalfEven (q : ℚ) : ℤ :=
  let f : ℤ := ratFloor q
  let r : ℚ := q - f
  if r < 1/2 then f
  else if 1/2 < r then f + 1
  else if f % 2 = 0 then f else f + 1

/-- Python `f"{v:.1f}"` on an exactly-representable value: one digit after
the decimal point, round half to even. -/
def format1 (v : ℚ) : String :=
  let n := roundHalfEven (v * 10)
  let sign := if v < 0 then "-" else ""
  let m := n.natAbs
  sign ++ toString (m / 10) ++ "." ++ toString (m % 10)

/-- The alert text built in `_handle_threshold_alert`:
`f"High {name} usage detected: {value:.1f}% (threshold: {threshold}%)"`. -/
def alertMessage (a : AlertContext) : String :=
  "High " ++ a.metric_name ++ " usage detected: " ++ format1 a.current_value
    ++ "% (threshold: " ++ toString a.threshold ++ "%)"

/-- Python `str.lower()` (ASCII lowering of the metric names used here),
written over the character list so that it reduces inside the kernel. -/
def pyLower (s : String) : String := ⟨s.data.map Char.toLower⟩

/-- The context dict built at the top of `_trigger_remediation`. -/
def buildContext (a : AlertContext) : RemContext :=
  { hostname := a.metrics.hostname
    timestamp := a.metrics.timestamp
    percentKey := pyLower a.metric_name ++ "_percent"
    percentValue := a.current_value
    threshold := a.threshold }

/-- `_check_thresholds`, pure part: the `alerts_triggered` list.  Strictly
greater-than comparisons, built in the fixed order CPU, Memory, Disk. -/
def alertsTriggered (cfg : MonitoringConfig) (m : SystemMetrics) :
    List AlertContext :=
  (if m.cpu_percent > (cfg.cpu_threshold : ℚ) then
    [{ metric_name := "CPU", current_value := m.cpu_percent,
       threshold := cfg.cpu_threshold, metrics := m }] else [])
  ++ (if m.memory_percent > (cfg.memory_threshold : ℚ) then
    [{ metric_name := "Memory", current_value := m.memory_percent,
       threshold := cfg.memory_threshold, metrics := m }] else [])
  ++ (if m.disk_percent > (cfg.disk_threshold : ℚ) then
    [{ metric_name := "Disk", current_value := m.disk_percent,
       threshold := cfg.disk_threshold, metrics := m }] else [])

/-- One Slack send.  Returns the oracle's response for the current call index
and the world with the call recorded; the `World` update does not depend on
the response. -/
def slackCall (o : Oracle) (w : World) (msg : String) (sev : Severity) :
    Except Exn Bool × World :=
  (o.notifyRes w.nNotify,
   { w with nNotify := w.nNotify + 1,
            trace := w.trace ++ [.notifyCall msg sev] })

/-- One `RemediationClient.trigger_remediation` call, analogous. -/
def remCall (o : Oracle) (w : World) (it : String) (ctx : RemContext) :
    Except Exn Bool × World :=
  (o.remediateRes w.nRem,
   { w with nRem := w.nRem + 1,
            trace := w.trace ++ [.remediateCall it ctx] })

/-- The failure text chosen by the `except` clauses of
`_trigger_remediation`, in source order: `except RemediationError`, then
`except ServiceUnavailableError` (both the `utils.exceptions` classes, using
`e.message`), then `except Exception` (using `str(e)`). -/
def remediationFailureMsg (it : String) : Exn → String
  | .remediationError m => "Remediation failed for " ++ it ++ ": " ++ m
  | .serviceUnavailableError m =>
      "Remediation service unavailable for " ++ it ++ ": " ++ m
  | e => "Unexpected error during remediation for " ++ it ++ ": " ++ e.str

/-- Body shared by the three `except` handlers of `_trigger_remediation`:
log, then `send_error_message(error_msg)`.  The send is *not* protected, so
an exception it raises propagates out of `_trigger_remediation`. -/
def handleRemExn (o : Oracle) (it : String) (e : Exn) (w : World) :
    World × Option Exn :=
  let (r, w1) := slackCall o w (remediationFailureMsg it e) .error
  match r with
  | .ok _ => (w1, none)
  | .error e2 => (w1, some e2)

/-- `SystemMonitor._trigger_remediation`.  Inside the `try`: build the
context, call the remediation client; on a truthy result increment
`remediation_count` and `send_success_message`; on a falsy result
`send_error_message`.  Any exception raised inside the `try` (from the
client call or from either send) is dispatched to the `except` clauses,
modelled by `handleRemExn`. -/
def triggerRemediationMon (o : Oracle) (it : String) (a : AlertContext)
    (w : World) : World × Option Exn :=
  let ctx := buildContext a
  let (res, w1) := remCall o w it ctx
  match res with
  | .ok true =>
      let w2 := { w1 with remediation_count := w1.remediation_count + 1 }
      let (r2, w3) := slackCall o w2 ("Remediation triggered for " ++ it)
        .success
      match r2 with
      | .ok _ => (w3, none)
      | .error e => handleRemExn o it e w3
  | .ok false =>
      let (r2, w2) := slackCall o w1
        ("Failed to trigger remediation for " ++ it) .error
      match r2 with
      | .ok _ => (w2, none)
      | .error e => handleRemExn o it e w2
  | .error e => handleRemExn o it e w1

/-- `SystemMonitor._handle_threshold_alert`: increment `alert_count`, send
the alert (inside `try/except Exception`, so the outcome — including an
exception — is discarded), then trigger remediation with
`issue_type = "high_" + metric_name.lower()`. -/
def handleThresholdAlert (o : Oracle) (a : AlertContext) (w : World) :
    World × Option Exn :=
  let w1 := { w with alert_count := w.alert_count + 1 }
  let (_, w2) := slackCall o w1 (alertMessage a) .warning
  triggerRemediationMon o ("high_" ++ pyLower a.metric_name) a w2

/-- The `for alert in alerts_triggered` loop at the end of
`_check_thresholds`: sequential, and a propagating exception aborts the
remaining iterations. -/
def processAlerts (o : Oracle) : List AlertContext → World → World × Option Exn
  | [], w => (w, none)
  | a :: rest, w =>
      match handleThresholdAlert o a w with
      | (w1, none) => processAlerts o rest w1
      | (w1, some e) => (w1, some e)

/-- `SystemMonitor._check_thresholds`. -/
def checkThresholds (o : Oracle) (cfg : MonitoringConfig) (m : SystemMetrics)
    (w : World) : World × Option Exn :=
  processAlerts o (alertsTriggered cfg m) w

/-- `SystemMonitor._gather_metrics`: the four OS reads in source order; the
`except Exception` clause wraps any failure in
`MonitoringError(f"Failed to gather system metrics: {e}")`.  Either all four
fields are populated or the whole call fails. -/
def gatherMetrics (os : OsSample) : Except Exn SystemMetrics :=
  match os.cpu with
  | .error e => .error (.monitoringError ("Failed to gather system metrics: " ++ e))
  | .ok c =>
    match os.memory with
    | .error e => .error (.monitoringError ("Failed to gather system metrics: " ++ e))
    | .ok mem =>
      match os.disk with
      | .error e => .error (.monitoringError ("Failed to gather system metrics: " ++ e))
      | .ok d =>
        match os.hostname with
        | .error e => .error (.monitoringError ("Failed to gather system metrics: " ++ e))
        | .ok h =>
          .ok { cpu_percent := c, memory_percent := mem, disk_percent := d,
                timestamp := os.timestamp, hostname := h }

/-- `SystemMonitor.check_system`: `check_count` is incremented *before* the
`try`; then metrics are gathered and thresholds checked; any exception is
re-raised as `MonitoringError(f"System check failed: {e}")`.  (The returned
`SystemMetrics` value is unused by the scheduled wrapper and is omitted.) -/
def checkSystem (o : Oracle) (cfg : MonitoringConfig) (os : OsSample)
    (w : World) : World × Option Exn :=
  let w0 := { w with check_count := w.check_count + 1 }
  match gatherMetrics os with
  | .error e => (w0, some (.monitoringError ("System check failed: " ++ e.str)))
  | .ok m =>
    match checkThresholds o cfg m w0 with
    | (w1, none) => (w1, none)
    | (w1, some e) =>
        (w1, some (.monitoringError ("System check failed: " ++ e.str)))

/-- `SystemMonitor._check_system_wrapper`: catch any exception from
`check_system`, log it, and best-effort `send_error_message` (whose own
failure is swallowed by the inner `try/except: pass`).  Never raises. -/
def checkSystemWrapper (o : Oracle) (cfg : MonitoringConfig) (os : OsSample)
    (w : World) : World :=
  match checkSystem o cfg os w with
  | (w1, none) => w1
  | (w1, some e) =>
      let (_, w2) := slackCall o w1 ("System check failed: " ++ e.str) .error
      w2

/-- The startup text of `start()`:
`f"🤖 EriBot monitoring started on {psutil.cpu_count()} CPU system"`. -/
def startupMessage (cpuCount : ℕ) : String :=
  "🤖 EriBot monitoring started on " ++ toString cpuCount ++ " CPU system"

/-- `SystemMonitor.start`: if already running, log a warning and return with
nothing changed.  Otherwise set `_running`, schedule the periodic job, run
one immediate check, start the monitoring thread, and send the best-effort
startup notification (`try/except`, outcome discarded).  The trailing
`_keep_alive()` loop only sleeps while `_running` holds and mutates nothing,
so it is not represented in the state. -/
def start (o : Oracle) (cfg : MonitoringConfig) (os : OsSample)
    (cpuCount : ℕ) (w : World) : World :=
  if w.running then w
  else
    let w1 := { w with running := true, schedJobs := w.schedJobs + 1 }
    let w2 := checkSystemWrapper o cfg os w1
    let w3 := { w2 with threads := w2.threads + 1 }
    let (_, w4) := slackCall o w3 (startupMessage cpuCount) .info
    w4

/-! The bundled remediation client (`clients/remediation.py`) -/

/-- An HTTP response as observed by `RemediationClient.trigger_remediation`.
`json` is the outcome of `response.json()`: `none` models a `ValueError`
(body not JSON), `some (s, m)` models a JSON object with optional `success`
and `message` fields.  `errStr` is the `str()` of the `HTTPError` that
`raise_for_status()` raises when `status ≥ 400`. -/
structure HttpResponse where
  status : ℕ
  json : Option (Option Bool × Option String)
  text : String
  errStr : String

/-- Outcome of one `session.post` (after the adapter's internal retries):
a response, or one of the `requests` exceptions distinguished by the
client's `except` clauses. -/
inductive PostOutcome where
  | resp (r : HttpResponse)
  | timeout
  | connError
  | otherExn (msg : String)

/-- A Python exception in flight inside `trigger_remediation`'s outer `try`. -/
inductive PyExn where
  | timeout
  | connError
  | httpError (status : ℕ) (estr : String)
  | pyRemediationError (msg : String)
  | otherExn (msg : String)

/-- Result of one iteration of the `for url in urls_to_try` loop. -/
inductive InnerRes where
  | ret (b : Bool)
  | raised (e : PyExn)
  | cont

/-- One loop iteration: post, `raise_for_status()`, JSON handling.  The inner
`except requests.exceptions.HTTPError` turns a 404 from the first URL into
`continue`; every other `HTTPError` — and every non-`HTTPError` exception —
propagates to the outer handlers. -/
def innerAttempt (out : PostOutcome) (isFirstUrl : Bool) : InnerRes :=
  match out with
  | .timeout => .raised .timeout
  | .connError => .raised .connError
  | .otherExn m => .raised (.otherExn m)
  | .resp r =>
    if 400 ≤ r.status then
      if r.status = 404 ∧ isFirstUrl then .cont
      else .raised (.httpError r.status r.errStr)
    else
      match r.json with
      | none => .ret true
      | some (sOpt, mOpt) =>
        if sOpt.getD true then .ret true
        else .raised (.pyRemediationError
          ("Remediation failed: " ++ mOpt.getD r.text))

/-- The outer `except` clauses of `trigger_remediation`, in source order:
`Timeout` → `EriTimeoutError('remediation', timeout)`; `ConnectionError` →
`ServiceUnavailableError`; `HTTPError` → a status-specific error; any other
exception (including the client's own `RemediationError` raised for a JSON
`success=false` body or for the fall-through case) → wrapped
`RemediationError(f'Unexpected error during remediation: {str(e)}')`. -/
def mapOuter (it : String) (timeout : ℤ) : PyExn → Exn
  | .timeout => .clientTimeoutError "remediation" timeout
  | .connError =>
      .clientServiceUnavailableError "Could not connect to remediation service"
  | .httpError 400 _ => .clientRemediationError "Invalid remediation request"
  | .httpError 404 _ => .clientRemediationError ("Unknown issue type: " ++ it)
  | .httpError 503 _ =>
      .clientServiceUnavailableError "Remediation service temporarily unavailable"
  | .httpError s estr =>
      .clientRemediationError ("HTTP error " ++ toString s ++ ": " ++ estr)
  | .pyRemediationError m =>
      .clientRemediationError ("Unexpected error during remediation: " ++ m)
  | .otherExn m =>
      .clientRemediationError ("Unexpected error during remediation: " ++ m)

/-- `RemediationClient.trigger_remediation`: try the new endpoint (post 0),
fall back to the legacy endpoint (post 1) on a 404, and translate exceptions
through the outer handlers.  `env k` is the outcome of the `k`-th POST of
this invocation; `timeout` is `config.timeout`. -/
def clientTriggerRemediation (env : ℕ → PostOutcome) (it : String)
    (timeout : ℤ) : Except Exn Bool :=
  match innerAttempt (env 0) true with
  | .ret b => .ok b
  | .raised e => .error (mapOuter it timeout e)
  | .cont =>
    match innerAttempt (env 1) false with
    | .ret b => .ok b
    | .raised e => .error (mapOuter it timeout e)
    | .cont =>
        .error (mapOuter it timeout
          (.pyRemediationError "All remediation endpoints failed"))

/-! Trace observation helpers -/

/-- Issue types of the remediation requests in a trace, in order. -/
def remCallSeq : List Event → List String
  | [] => []
  | .remediateCall it _ :: es => it :: remCallSeq es
  | .notifyCall _ _ :: es => remCallSeq es

/-- Messages of the notifications in a trace carrying a given severity. -/
def notifySeq (sev : Severity) : List Event → List String
  | [] => []
  | .notifyCall m s :: es =>
      if s = sev then m :: notifySeq sev es else notifySeq sev es
  | .remediateCall _ _ :: es => notifySeq sev es

/-- Position of a metric name in the fixed CPU, Memory, Disk emission order. -/
def metricRank : String → ℕ
  | "CPU" => 0
  | "Memory" => 1
  | "Disk" => 2
  | _ => 3

/-- Number of notifications in a trace whose text is the falsy-branch
failure message `f"Failed to trigger remediation for {issue_type}"` sent at
`error` severity. -/
def falsyNotifyCount (it : String) : List Event → ℕ
  | [] => 0
  | .notifyCall m .error :: es =>
      (if m = "Failed to trigger remediation for " ++ it then 1 else 0)
        + falsyNotifyCount it es
  | _ :: es => falsyNotifyCount it es

/-- Whether a port call returned normally with a truthy result. -/
def isOkTrue : Except Exn Bool → Bool
  | .ok true => true
  | _ => false

/-- Two port behaviours that may differ in Slack responses only before call
index `n`, and agree on all remediation responses. -/
def Oracle.AgreeFrom (n : ℕ) (o₁ o₂ : Oracle) : Prop :=
  (∀ k, n ≤ k → o₁.notifyRes k = o₂.notifyRes k)
    ∧ ∀ k, o₁.remediateRes k = o₂.remediateRes k

/-! Concrete inputs used by scenario theorems and witnesses -/

/-- Ports that always succeed. -/
def okOracle : Oracle := ⟨fun _ => .ok true, fun _ => .ok true⟩

/-- Ports whose remediation backend always declines (returns `False`). -/
def declineOracle : Oracle := ⟨fun _ => .ok true, fun _ => .ok false⟩

/-- Ports whose remediation backend always raises
`utils.exceptions.RemediationError("backend down")`. -/
def faultOracle : Oracle :=
  ⟨fun _ => .ok true, fun _ => .error (.remediationError "backend down")⟩

/-- Slack stub that throws only on its very first call; remediation always
succeeds (the spec's P4 test stub). -/
def throwFirstNotifyOracle : Oracle :=
  ⟨fun k => if k = 0 then .error (.slackError "first send fails") else .ok true,
   fun _ => .ok true⟩

/-- Ports for the C1 counterexample: the remediation backend is unreachable
and the *second* Slack call (the failure notification issued inside the
`except` handler) raises. -/
def abortOracle : Oracle :=
  ⟨fun k => if k = 1 then .error (.slackError "rate limited") else .ok true,
   fun _ => .error (.clientServiceUnavailableError
     "Could not connect to remediation service")⟩

/-- All three thresholds at 90, the configuration of Scenarios A and E. -/
def cfg90 : MonitoringConfig :=
  { cpu_threshold := 90, disk_threshold := 90, memory_threshold := 90,
    check_interval := 60 }

/-- Scenario A sample: cpu 95.0, memory 40.0, disk 50.0. -/
def osA : OsSample :=
  { cpu := .ok 95, memory := .ok 40, disk := .ok 50,
    hostname := .ok "host1", timestamp := "2024-01-01T00:00:00" }

/-- The metrics `_gather_metrics` builds from `osA`. -/
def mA : SystemMetrics :=
  { cpu_percent := 95, memory_percent := 40, disk_percent := 50,
    timestamp := "2024-01-01T00:00:00", hostname := "host1" }

/-- Sample with CPU and memory over threshold (used by the C1
counterexample). -/
def osCM : OsSample :=
  { cpu := .ok 95, memory := .ok 95, disk := .ok 50,
    hostname := .ok "host1", timestamp := "2024-01-01T00:00:00" }

/-- The metrics gathered from `osCM`. -/
def mCM : SystemMetrics :=
  { cpu_percent := 95, memory_percent := 95, disk_percent := 50,
    timestamp := "2024-01-01T00:00:00", hostname := "host1" }

/-- Scenario E sample: all three metrics at 95.0. -/
def osE : OsSample :=
  { cpu := .ok 95, memory := .ok 95, disk := .ok 95,
    hostname := .ok "host1", timestamp := "2024-01-01T00:00:00" }

/-- The metrics gathered from `osE`. -/
def mE : SystemMetrics :=
  { cpu_percent := 95, memory_percent := 95, disk_percent := 95,
    timestamp := "2024-01-01T00:00:00", hostname := "host1" }

/-- A sample whose CPU read raises inside `psutil`. -/
def osFail : OsSample :=
  { cpu := .error "psutil raised", memory := .ok 40, disk := .ok 50,
    hostname := .ok "host1", timestamp := "2024-01-01T00:00:00" }

/-- A concrete CPU alert context (95% against a threshold of 90). -/
def aCPU : AlertContext :=
  { metric_name := "CPU", current_value := 95, threshold := 90, metrics := mA }

/-- A world in the `Running` state with some history, for the `start()`
idempotence witness. -/
def wRunning : World :=
  { running := true, schedJobs := 1, threads := 1, check_count := 4,
    alert_count := 2, remediation_count := 1, nNotify := 5, nRem := 2,
    trace := [] }

/-- An HTTP environment whose first POST answers 200 with JSON
`{success: false, message: "declined"}`. -/
def envDeclined : ℕ → PostOutcome := fun _ =>
  .resp { status := 200, json := some (some false, some "declined"),
          text := "body", errStr := "" }

/-- An HTTP environment whose first POST answers 200 with JSON
`{success: true}`. -/
def envOk : ℕ → PostOutcome := fun _ =>
  .resp { status := 200, json := some (some true, some "done"),
          text := "body", errStr := "" }

/-- States of the monitor reachable from construction by any sequence of
scheduled cycles and `start()` calls, against arbitrary port and OS
behaviour. -/
inductive Reachable (cfg : MonitoringConfig) : World → Prop
  | init : Reachable cfg World.init
  | cycle (o : Oracle) (os : OsSample) (w : World) :
      Reachable cfg w → Reachable cfg (checkSystemWrapper o cfg os w)
  | start_call (o : Oracle) (os : OsSample) (n : ℕ) (w : World) :
      Reachable cfg w → Reachable cfg (start o cfg os n w)

/-- CPU alert context for the two-excursion sample `mCM`. -/
def aCpuCM : AlertContext :=
  { metric_name := "CPU", current_value := 95, threshold := 90, metrics := mCM }

/-- Memory alert context for the two-excursion sample `mCM`. -/
def aMemCM : AlertContext :=
  { metric_name := "Memory", current_value := 95, threshold := 90, metrics := mCM }

/-- CPU alert context for the Scenario E sample `mE`. -/
def aCpuE : AlertContext :=
  { metric_name := "CPU", current_value := 95, threshold := 90, metrics := mE }

/-- Memory alert context for the Scenario E sample `mE`. -/
def aMemE : AlertContext :=
  { metric_name := "Memory", current_value := 95, threshold := 90, metrics := mE }

/-- Disk alert context for the Scenario E sample `mE`. -/
def aDiskE : AlertContext :=
  { metric_name := "Disk", current_value := 95, threshold := 90, metrics := mE }

/-! Bookkeeping lemmas -/

lemma handleRemExn_spec (o : Oracle) (it : String) (e : Exn) (w : World) :
    handleRemExn o it e w =
      ({ w with nNotify := w.nNotify + 1,
                trace := w.trace
                  ++ [.notifyCall (remediationFailureMsg it e) .error] },
       match o.notifyRes w.nNotify with
       | .ok _ => none
       | .error e2 => some e2) := by
  unfold handleRemExn slackCall
  cases o.notifyRes w.nNotify <;> simp

lemma trig_rem_count (o : Oracle) (it : String) (a : AlertContext) (w : World) :
    (triggerRemediationMon o it a w).1.remediation_count
      = w.remediation_count
        + if isOkTrue (o.remediateRes w.nRem) then 1 else 0 := by
  unfold triggerRemediationMon remCall slackCall
  rcases h : o.remediateRes w.nRem with e | b
  · simp [h, handleRemExn_spec, isOkTrue]
  · cases b
    · cases h2 : o.notifyRes w.nNotify <;> simp [h, h2, handleRemExn_spec, isOkTrue]
    · cases h2 : o.notifyRes w.nNotify <;> simp [h, h2, handleRemExn_spec, isOkTrue]

lemma trig_alert_count (o : Oracle) (it : String) (a : AlertContext)
    (w : World) :
    (triggerRemediationMon o it a w).1.alert_count = w.alert_count := by
  unfold triggerRemediationMon remCall slackCall
  rcases h : o.remediateRes w.nRem with e | b
  · simp [h, handleRemExn_spec]
  · cases b
    · cases h2 : o.notifyRes w.nNotify <;> simp [h, h2, handleRemExn_spec]
    · cases h2 : o.notifyRes w.nNotify <;> simp [h, h2, handleRemExn_spec]

lemma trig_check_count (o : Oracle) (it : String) (a : AlertContext)
    (w : World) :
    (triggerRemediationMon o it a w).1.check_count = w.check_count := by
  unfold triggerRemediationMon remCall slackCall
  rcases h : o.remediateRes w.nRem with e | b
  · simp [h, handleRemExn_spec]
  · cases b
    · cases h2 : o.notifyRes w.nNotify <;> simp [h, h2, handleRemExn_spec]
    · cases h2 : o.notifyRes w.nNotify <;> simp [h, h2, handleRemExn_spec]

lemma trig_nNotify_ge (o : Oracle) (it : String) (a : AlertContext)
    (w : World) :
    w.nNotify ≤ (triggerRemediationMon o it a w).1.nNotify := by
  unfold triggerRemediationMon remCall slackCall
  rcases h : o.remediateRes w.nRem with e | b
  · simp [h, handleRemExn_spec]
  · cases b
    · cases h2 : o.notifyRes w.nNotify <;>
        simp [h, h2, handleRemExn_spec] <;> omega
    · cases h2 : o.notifyRes w.nNotify <;>
        simp [h, h2, handleRemExn_spec] <;> omega

lemma handle_alert_count (o : Oracle) (a : AlertContext) (w : World) :
    (handleThresholdAlert o a w).1.alert_count = w.alert_count + 1 := by
  unfold handleThresholdAlert slackCall
  simp [trig_alert_count]

lemma handle_rem_count (o : Oracle) (a : AlertContext) (w : World) :
    (handleThresholdAlert o a w).1.remediation_count
      = w.remediation_count
        + if isOkTrue (o.remediateRes w.nRem) then 1 else 0 := by
  unfold handleThresholdAlert slackCall
  simp [trig_rem_count]

lemma handle_check_count (o : Oracle) (a : AlertContext) (w : World) :
    (handleThresholdAlert o a w).1.check_count = w.check_count := by
  unfold handleThresholdAlert slackCall
  simp [trig_check_count]

lemma handle_nNotify_ge (o : Oracle) (a : AlertContext) (w : World) :
    w.nNotify + 1 ≤ (handleThresholdAlert o a w).1.nNotify := by
  unfold handleThresholdAlert slackCall
  simpa using trig_nNotify_ge o ("high_" ++ pyLower a.metric_name) a
    { w with alert_count := w.alert_count + 1, nNotify := w.nNotify + 1,
             trace := w.trace ++ [.notifyCall (alertMessage a) .warning] }

lemma processAlerts_inv (o : Oracle) (l : List AlertContext) (w : World)
    (h : w.remediation_count ≤ w.alert_count) :
    (processAlerts o l w).1.remediation_count
      ≤ (processAlerts o l w).1.alert_count := by
  induction l generalizing w with
  | nil => simpa [processAlerts]
  | cons a rest ih =>
    unfold processAlerts
    rcases hh : handleThresholdAlert o a w with ⟨w1, ex⟩
    have e1 := handle_alert_count o a w
    have e2 := handle_rem_count o a w
    rw [hh] at e1 e2
    simp only at e1 e2
    have h1 : w1.remediation_count ≤ w1.alert_count := by
      rw [e1, e2]; split <;> omega
    cases ex with
    | none => simpa using ih w1 h1
    | some e => simpa using h1

lemma processAlerts_complete_alert (o : Oracle) (l : List AlertContext)
    (w w' : World) (h : processAlerts o l w = (w', none)) :
    w'.alert_count = w.alert_count + l.length := by
  induction l generalizing w with
  | nil =>
    simp only [processAlerts] at h
    cases h; simp
  | cons a rest ih =>
    unfold processAlerts at h
    rcases hh : handleThresholdAlert o a w with ⟨w1, ex⟩
    rw [hh] at h
    have e1 := handle_alert_count o a w
    rw [hh] at e1
    simp only at e1
    cases ex with
    | none =>
      simp only at h
      have := ih w1 h
      rw [this, e1]
      simp [List.length_cons]
      omega
    | some e => simp at h

lemma processAlerts_check (o : Oracle) (l : List AlertContext) (w : World) :
    (processAlerts o l w).1.check_count = w.check_count := by
  induction l generalizing w with
  | nil => simp [processAlerts]
  | cons a rest ih =>
    unfold processAlerts
    rcases hh : handleThresholdAlert o a w with ⟨w1, ex⟩
    have e1 := handle_check_count o a w
    rw [hh] at e1
    simp only at e1
    cases ex with
    | none => simpa [e1] using ih w1
    | some e => simpa using e1

lemma processAlerts_nNotify_ge (o : Oracle) (l : List AlertContext)
    (w : World) : w.nNotify ≤ (processAlerts o l w).1.nNotify := by
  induction l generalizing w with
  | nil => simp [processAlerts]
  | cons a rest ih =>
    unfold processAlerts
    rcases hh : handleThresholdAlert o a w with ⟨w1, ex⟩
    have e1 := handle_nNotify_ge o a w
    rw [hh] at e1
    simp only at e1
    cases ex with
    | none =>
      have := ih w1
      simp only
      omega
    | some e =>
      simp only
      omega

lemma checkSystem_check (o : Oracle) (cfg : MonitoringConfig) (os : OsSample)
    (w : World) : (checkSystem o cfg os w).1.check_count = w.check_count + 1 := by
  unfold checkSystem checkThresholds
  cases gatherMetrics os with
  | error e => simp
  | ok m =>
    rcases hh : processAlerts o (alertsTriggered cfg m)
      { w with check_count := w.check_count + 1 } with ⟨w1, ex⟩
    have e1 := processAlerts_check o (alertsTriggered cfg m)
      { w with check_count := w.check_count + 1 }
    rw [hh] at e1
    simp only at e1
    cases ex <;> simpa [hh]

lemma checkSystem_inv (o : Oracle) (cfg : MonitoringConfig) (os : OsSample)
    (w : World) (h : w.remediation_count ≤ w.alert_count) :
    (checkSystem o cfg os w).1.remediation_count
      ≤ (checkSystem o cfg os w).1.alert_count := by
  unfold checkSystem checkThresholds
  cases gatherMetrics os with
  | error e => simpa
  | ok m =>
    rcases hh : processAlerts o (alertsTriggered cfg m)
      { w with check_count := w.check_count + 1 } with ⟨w1, ex⟩
    have e1 := processAlerts_inv o (alertsTriggered cfg m)
      { w with check_count := w.check_count + 1 } (by simpa)
    rw [hh] at e1
    simp only at e1
    cases ex <;> simpa [hh]

lemma wrapper_check (o : Oracle) (cfg : MonitoringConfig) (os : OsSample)
    (w : World) :
    (checkSystemWrapper o cfg os w).check_count = w.check_count + 1 := by
  unfold checkSystemWrapper slackCall
  rcases hh : checkSystem o cfg os w with ⟨w1, ex⟩
  have e1 := checkSystem_check o cfg os w
  rw [hh] at e1
  simp only at e1
  cases ex <;> simpa

lemma wrapper_inv (o : Oracle) (cfg : MonitoringConfig) (os : OsSample)
    (w : World) (h : w.remediation_count ≤ w.alert_count) :
    (checkSystemWrapper o cfg os w).remediation_count
      ≤ (checkSystemWrapper o cfg os w).alert_count := by
  unfold checkSystemWrapper slackCall
  rcases hh : checkSystem o cfg os w with ⟨w1, ex⟩
  have e1 := checkSystem_inv o cfg os w h
  rw [hh] at e1
  simp only at e1
  cases ex <;> simpa

lemma start_inv (o : Oracle) (cfg : MonitoringConfig) (os : OsSample) (n : ℕ)
    (w : World) (h : w.remediation_count ≤ w.alert_count) :
    (start o cfg os n w).remediation_count ≤ (start o cfg os n w).alert_count := by
  unfold start slackCall
  by_cases hr : w.running
  · simpa [hr]
  · simp only [hr, if_false, Bool.false_eq_true]
    have := wrapper_inv o cfg os
      { w with running := true, schedJobs := w.schedJobs + 1 } (by simpa)
    simpa using this

lemma reachable_inv (cfg : MonitoringConfig) (w : World)
    (h : Reachable cfg w) : w.remediation_count ≤ w.alert_count := by
  induction h with
  | init => simp [World.init]
  | cycle o os w hr ih => exact wrapper_inv o cfg os w ih
  | start_call o os n w hr ih => exact start_inv o cfg os n w ih


lemma trig_spec_true (o : Oracle) (it : String) (a : AlertContext)
    (w : World) (h : o.remediateRes w.nRem = Except.ok true) :
    triggerRemediationMon o it a w =
      match o.notifyRes w.nNotify with
      | .ok _ =>
        ({ w with remediation_count := w.remediation_count + 1,
                  nRem := w.nRem + 1, nNotify := w.nNotify + 1,
                  trace := w.trace ++ [.remediateCall it (buildContext a),
                    .notifyCall ("Remediation triggered for " ++ it) .success] },
         none)
      | .error e =>
        ({ w with remediation_count := w.remediation_count + 1,
                  nRem := w.nRem + 1, nNotify := w.nNotify + 2,
                  trace := w.trace ++ [.remediateCall it (buildContext a),
                    .notifyCall ("Remediation triggered for " ++ it) .success,
                    .notifyCall (remediationFailureMsg it e) .error] },
         match o.notifyRes (w.nNotify + 1) with
         | .ok _ => none
         | .error e2 => some e2) := by
  unfold triggerRemediationMon remCall slackCall
  cases h2 : o.notifyRes w.nNotify with
  | ok b => simp [h, h2, handleRemExn_spec]
  | error e => simp [h, h2, handleRemExn_spec]

lemma trig_spec_false (o : Oracle) (it : String) (a : AlertContext)
    (w : World) (h : o.remediateRes w.nRem = Except.ok false) :
    triggerRemediationMon o it a w =
      match o.notifyRes w.nNotify with
      | .ok _ =>
        ({ w with nRem := w.nRem + 1, nNotify := w.nNotify + 1,
                  trace := w.trace ++ [.remediateCall it (buildContext a),
                    .notifyCall ("Failed to trigger remediation for " ++ it)
                      .error] },
         none)
      | .error e =>
        ({ w with nRem := w.nRem + 1, nNotify := w.nNotify + 2,
                  trace := w.trace ++ [.remediateCall it (buildContext a),
                    .notifyCall ("Failed to trigger remediation for " ++ it)
                      .error,
                    .notifyCall (remediationFailureMsg it e) .error] },
         match o.notifyRes (w.nNotify + 1) with
         | .ok _ => none
         | .error e2 => some e2) := by
  unfold triggerRemediationMon remCall slackCall
  cases h2 : o.notifyRes w.nNotify with
  | ok b => simp [h, h2, handleRemExn_spec]
  | error e => simp [h, h2, handleRemExn_spec]

lemma trig_spec_error (o : Oracle) (it : String) (a : AlertContext)
    (w : World) (e : Exn) (h : o.remediateRes w.nRem = Except.error e) :
    triggerRemediationMon o it a w =
      ({ w with nRem := w.nRem + 1, nNotify := w.nNotify + 1,
                trace := w.trace ++ [.remediateCall it (buildContext a),
                  .notifyCall (remediationFailureMsg it e) .error] },
       match o.notifyRes w.nNotify with
       | .ok _ => none
       | .error e2 => some e2) := by
  unfold triggerRemediationMon remCall slackCall
  cases h2 : o.notifyRes w.nNotify with
  | ok b => simp [h, h2, handleRemExn_spec]
  | error e2 => simp [h, h2, handleRemExn_spec]

lemma remCallSeq_append (t u : List Event) :
    remCallSeq (t ++ u) = remCallSeq t ++ remCallSeq u := by
  induction t with
  | nil => simp [remCallSeq]
  | cons e es ih => cases e <;> simp [remCallSeq, ih]

lemma notifySeq_append (sev : Severity) (t u : List Event) :
    notifySeq sev (t ++ u) = notifySeq sev t ++ notifySeq sev u := by
  induction t with
  | nil => simp [notifySeq]
  | cons e es ih => cases e <;> simp [notifySeq, ih] <;> split <;> simp [ih]

lemma falsyNotifyCount_append (it : String) (t u : List Event) :
    falsyNotifyCount it (t ++ u)
      = falsyNotifyCount it t + falsyNotifyCount it u := by
  induction t with
  | nil => simp [falsyNotifyCount]
  | cons e es ih =>
    cases e with
    | notifyCall m sev =>
      cases sev <;> simp [falsyNotifyCount, ih] <;> omega
    | remediateCall a b => simp [falsyNotifyCount, ih]

lemma trig_trace_form (o : Oracle) (it : String) (a : AlertContext)
    (w : World) :
    ∃ ns, (triggerRemediationMon o it a w).1.trace
        = w.trace ++ .remediateCall it (buildContext a) :: ns
      ∧ remCallSeq ns = [] := by
  rcases h : o.remediateRes w.nRem with e | b
  · rw [trig_spec_error o it a w e h]
    exact ⟨[.notifyCall (remediationFailureMsg it e) .error],
      by simp, by simp [remCallSeq]⟩
  · cases b
    · rw [trig_spec_false o it a w h]
      cases h2 : o.notifyRes w.nNotify with
      | ok b2 =>
        exact ⟨[.notifyCall ("Failed to trigger remediation for " ++ it) .error],
          by simp [h2], by simp [remCallSeq]⟩
      | error e2 =>
        exact ⟨[.notifyCall ("Failed to trigger remediation for " ++ it) .error,
                .notifyCall (remediationFailureMsg it e2) .error],
          by simp [h2], by simp [remCallSeq]⟩
    · rw [trig_spec_true o it a w h]
      cases h2 : o.notifyRes w.nNotify with
      | ok b2 =>
        exact ⟨[.notifyCall ("Remediation triggered for " ++ it) .success],
          by simp [h2], by simp [remCallSeq]⟩
      | error e2 =>
        exact ⟨[.notifyCall ("Remediation triggered for " ++ it) .success,
                .notifyCall (remediationFailureMsg it e2) .error],
          by simp [h2], by simp [remCallSeq]⟩

lemma handle_trace_form (o : Oracle) (a : AlertContext) (w : World) :
    ∃ ns, (handleThresholdAlert o a w).1.trace
        = w.trace ++ .notifyCall (alertMessage a) .warning
            :: .remediateCall ("high_" ++ pyLower a.metric_name)
                 (buildContext a) :: ns
      ∧ remCallSeq ns = [] := by
  unfold handleThresholdAlert slackCall
  obtain ⟨ns, h1, h2⟩ := trig_trace_form o ("high_" ++ pyLower a.metric_name) a
    { w with alert_count := w.alert_count + 1, nNotify := w.nNotify + 1,
             trace := w.trace ++ [.notifyCall (alertMessage a) .warning] }
  exact ⟨ns, by simpa using h1, h2⟩

lemma handle_remCallSeq (o : Oracle) (a : AlertContext) (w : World) :
    remCallSeq (handleThresholdAlert o a w).1.trace
      = remCallSeq w.trace ++ ["high_" ++ pyLower a.metric_name] := by
  obtain ⟨ns, h1, h2⟩ := handle_trace_form o a w
  rw [h1, remCallSeq_append]
  simp [remCallSeq, h2]

lemma processAlerts_complete_remCallSeq (o : Oracle) (l : List AlertContext)
    (w w' : World) (h : processAlerts o l w = (w', none)) :
    remCallSeq w'.trace = remCallSeq w.trace
      ++ l.map (fun a => "high_" ++ pyLower a.metric_name) := by
  induction l generalizing w with
  | nil =>
    simp only [processAlerts] at h
    cases h; simp
  | cons a rest ih =>
    unfold processAlerts at h
    rcases hh : handleThresholdAlert o a w with ⟨w1, ex⟩
    rw [hh] at h
    have e1 := handle_remCallSeq o a w
    rw [hh] at e1
    simp only at e1
    cases ex with
    | none =>
      simp only at h
      rw [ih w1 h, e1]
      simp
    | some e => simp at h

lemma checkSystem_complete_alert (o : Oracle) (cfg : MonitoringConfig)
    (os : OsSample) (m : SystemMetrics) (w w' : World)
    (hg : gatherMetrics os = .ok m)
    (h : checkSystem o cfg os w = (w', none)) :
    w'.alert_count = w.alert_count + (alertsTriggered cfg m).length := by
  unfold checkSystem checkThresholds at h
  rw [hg] at h
  simp only at h
  rcases hh : processAlerts o (alertsTriggered cfg m)
    { w with check_count := w.check_count + 1 } with ⟨w1, ex⟩
  rw [hh] at h
  cases ex with
  | none =>
    simp only at h
    cases h
    simpa using processAlerts_complete_alert o (alertsTriggered cfg m) _ _ hh
  | some e => simp at h

lemma agreeFrom_mono {m n : ℕ} (o₁ o₂ : Oracle) (hmn : m ≤ n)
    (h : Oracle.AgreeFrom m o₁ o₂) : Oracle.AgreeFrom n o₁ o₂ :=
  ⟨fun k hk => h.1 k (le_trans hmn hk), h.2⟩

lemma trig_agree (o₁ o₂ : Oracle) (it : String) (a : AlertContext) (w : World)
    (h : Oracle.AgreeFrom w.nNotify o₁ o₂) :
    triggerRemediationMon o₁ it a w = triggerRemediationMon o₂ it a w := by
  have hr : o₁.remediateRes w.nRem = o₂.remediateRes w.nRem := h.2 w.nRem
  have hn0 : o₁.notifyRes w.nNotify = o₂.notifyRes w.nNotify :=
    h.1 w.nNotify le_rfl
  have hn1 : o₁.notifyRes (w.nNotify + 1) = o₂.notifyRes (w.nNotify + 1) :=
    h.1 (w.nNotify + 1) (Nat.le_succ _)
  rcases h2 : o₂.remediateRes w.nRem with e | b
  · rw [trig_spec_error o₁ it a w e (hr.trans h2),
      trig_spec_error o₂ it a w e h2, hn0]
  · cases b
    · rw [trig_spec_false o₁ it a w (hr.trans h2),
        trig_spec_false o₂ it a w h2, hn0, hn1]
    · rw [trig_spec_true o₁ it a w (hr.trans h2),
        trig_spec_true o₂ it a w h2, hn0, hn1]

lemma handle_agree (o₁ o₂ : Oracle) (a : AlertContext) (w : World)
    (h : Oracle.AgreeFrom (w.nNotify + 1) o₁ o₂) :
    handleThresholdAlert o₁ a w = handleThresholdAlert o₂ a w := by
  unfold handleThresholdAlert slackCall
  exact trig_agree o₁ o₂ ("high_" ++ pyLower a.metric_name) a
    { w with alert_count := w.alert_count + 1, nNotify := w.nNotify + 1,
             trace := w.trace ++ [.notifyCall (alertMessage a) .warning] } h

lemma process_agree (o₁ o₂ : Oracle) (l : List AlertContext) (w : World)
    (h : Oracle.AgreeFrom w.nNotify o₁ o₂) :
    processAlerts o₁ l w = processAlerts o₂ l w := by
  induction l generalizing w with
  | nil => rfl
  | cons a rest ih =>
    unfold processAlerts
    rw [handle_agree o₁ o₂ a w
      (agreeFrom_mono o₁ o₂ (Nat.le_succ _) h)]
    rcases hh : handleThresholdAlert o₂ a w with ⟨w1, ex⟩
    have hge := handle_nNotify_ge o₂ a w
    rw [hh] at hge
    simp only at hge
    cases ex with
    | none =>
      simp only
      exact ih w1 (agreeFrom_mono o₁ o₂ (by omega) h)
    | some e => rfl

lemma innerAttempt_ret_true (out : PostOutcome) (flag : Bool) (b : Bool)
    (h : innerAttempt out flag = .ret b) : b = true := by
  cases out with
  | timeout => simp [innerAttempt] at h
  | connError => simp [innerAttempt] at h
  | otherExn m => simp [innerAttempt] at h
  | resp r =>
    simp only [innerAttempt] at h
    split at h
    · split at h <;> simp_all
    · rcases hj : r.json with _ | ⟨sOpt, mOpt⟩ <;> rw [hj] at h <;>
        dsimp only at h
      · injection h with h2
        exact h2.symm
      · by_cases hs : sOpt.getD true = true
        · rw [if_pos hs] at h
          injection h with h2
          exact h2.symm
        · rw [if_neg hs] at h
          exact InnerRes.noConfusion h

lemma str_data_append (s t : String) : (s ++ t).data = s.data ++ t.data := rfl

lemma str_head_append (s t : String) (c : Char) (h : s.data.head? = some c) :
    (s ++ t).data.head? = some c := by
  rw [str_data_append]
  cases hd : s.data with
  | nil => rw [hd] at h; simp at h
  | cons c2 l =>
    rw [hd] at h
    simp at h
    simp [hd, h]

lemma ne_of_head (s t : String) (h : s.data.head? ≠ t.data.head?) : s ≠ t :=
  fun e => h (congrArg (fun x => x.data.head?) e)

lemma falsy_msg_head (it : String) :
    ("Failed to trigger remediation for " ++ it).data.head? = some 'F' :=
  str_head_append "Failed to trigger remediation for " it 'F' rfl

lemma remediationFailureMsg_ne_falsy (it : String) (e : Exn) :
    remediationFailureMsg it e ≠ "Failed to trigger remediation for " ++ it := by
  have hRU : (remediationFailureMsg it e).data.head? = some 'R'
      ∨ (remediationFailureMsg it e).data.head? = some 'U' := by
    cases e <;> simp only [remediationFailureMsg]
    · right
      exact str_head_append _ _ 'U'
        (str_head_append _ _ 'U'
          (str_head_append "Unexpected error during remediation for " it 'U' rfl))
    · left
      exact str_head_append _ _ 'R'
        (str_head_append _ _ 'R'
          (str_head_append "Remediation failed for " it 'R' rfl))
    · left
      exact str_head_append _ _ 'R'
        (str_head_append _ _ 'R'
          (str_head_append "Remediation service unavailable for " it 'R' rfl))
    all_goals
      right
      exact str_head_append _ _ 'U'
        (str_head_append _ _ 'U'
          (str_head_append "Unexpected error during remediation for " it 'U' rfl))
  refine ne_of_head _ _ ?_
  rw [falsy_msg_head it]
  rcases hRU with hh | hh <;> rw [hh] <;> decide

/-! Concrete evaluations -/

lemma fmt95 : format1 95 = "95.0" := by
  unfold format1 roundHalfEven ratFloor
  norm_num
  rfl

lemma alertMessageA : alertMessage aCPU
    = "High CPU usage detected: 95.0% (threshold: 90%)" := by
  simp only [alertMessage, aCPU, fmt95]
  rfl

lemma alertsA : alertsTriggered cfg90 mA = [aCPU] := by
  unfold alertsTriggered cfg90 mA aCPU
  norm_num
  rfl

lemma gatherA : gatherMetrics osA = .ok mA := rfl

lemma alertsCM : alertsTriggered cfg90 mCM = [aCpuCM, aMemCM] := by
  unfold alertsTriggered cfg90 mCM aCpuCM aMemCM
  norm_num
  rfl

lemma gatherCM : gatherMetrics osCM = .ok mCM := rfl

lemma alertsE : alertsTriggered cfg90 mE = [aCpuE, aMemE, aDiskE] := by
  unfold alertsTriggered cfg90 mE aCpuE aMemE aDiskE
  norm_num
  rfl

lemma gatherE : gatherMetrics osE = .ok mE := rfl

lemma checkA_eval : checkSystem okOracle cfg90 osA World.init
    = (⟨false, 0, 0, 1, 1, 1, 2, 1,
        [.notifyCall (alertMessage aCPU) .warning,
         .remediateCall "high_cpu" (buildContext aCPU),
         .notifyCall "Remediation triggered for high_cpu" .success]⟩,
       none) := by
  unfold checkSystem checkThresholds
  simp only [gatherA, alertsA]
  rfl

lemma checkCM_eval : checkSystem abortOracle cfg90 osCM World.init
    = (⟨false, 0, 0, 1, 1, 0, 2, 1,
        [.notifyCall (alertMessage aCpuCM) .warning,
         .remediateCall "high_cpu" (buildContext aCpuCM),
         .notifyCall (remediationFailureMsg "high_cpu"
           (.clientServiceUnavailableError
             "Could not connect to remediation service")) .error]⟩,
       some (.monitoringError "System check failed: rate limited")) := by
  unfold checkSystem checkThresholds
  simp only [gatherCM, alertsCM]
  rfl

lemma checkThE_eval : checkThresholds okOracle cfg90 mE World.init
    = (⟨false, 0, 0, 0, 3, 3, 6, 3,
        [.notifyCall (alertMessage aCpuE) .warning,
         .remediateCall "high_cpu" (buildContext aCpuE),
         .notifyCall "Remediation triggered for high_cpu" .success,
         .notifyCall (alertMessage aMemE) .warning,
         .remediateCall "high_memory" (buildContext aMemE),
         .notifyCall "Remediation triggered for high_memory" .success,
         .notifyCall (alertMessage aDiskE) .warning,
         .remediateCall "high_disk" (buildContext aDiskE),
         .notifyCall "Remediation triggered for high_disk" .success]⟩,
       none) := by
  unfold checkThresholds
  rw [alertsE]
  rfl

lemma checkThP4_eval : checkThresholds throwFirstNotifyOracle cfg90 mE
    World.init
    = (⟨false, 0, 0, 0, 3, 3, 6, 3,
        [.notifyCall (alertMessage aCpuE) .warning,
         .remediateCall "high_cpu" (buildContext aCpuE),
         .notifyCall "Remediation triggered for high_cpu" .success,
         .notifyCall (alertMessage aMemE) .warning,
         .remediateCall "high_memory" (buildContext aMemE),
         .notifyCall "Remediation triggered for high_memory" .success,
         .notifyCall (alertMessage aDiskE) .warning,
         .remediateCall "high_disk" (buildContext aDiskE),
         .notifyCall "Remediation triggered for high_disk" .success]⟩,
       none) := by
  unfold checkThresholds
  rw [alertsE]
  rfl

/-! Claim theorems -/

/-- C2: threshold strictness.  For every metrics sample and configured
threshold set, `_check_thresholds` produces an alert for a metric iff its
current value is strictly greater than its configured threshold (strict `>`,
not `>=`); a value exactly equal to its threshold yields no AlertEvent. -/
theorem C2_threshold_strictness (cfg : MonitoringConfig) (m : SystemMetrics) :
    ((∃ a ∈ alertsTriggered cfg m, a.metric_name = "CPU")
        ↔ m.cpu_percent > (cfg.cpu_threshold : ℚ))
    ∧ ((∃ a ∈ alertsTriggered cfg m, a.metric_name = "Memory")
        ↔ m.memory_percent > (cfg.memory_threshold : ℚ))
    ∧ ((∃ a ∈ alertsTriggered cfg m, a.metric_name = "Disk")
        ↔ m.disk_percent > (cfg.disk_threshold : ℚ)) := by
  unfold alertsTriggered
  split_ifs with h1 h2 h3 <;> simp_all


/-- C1 (amended): in every reachable state `remediation_count ≤ alert_count`;
`remediation_count` is incremented (one per AlertEvent) exactly when the
remediation call returns a truthy result; and a cycle that completes without
a propagating exception increments `alert_count` by exactly the number of
AlertEvents produced that cycle.  (The unamended per-cycle statement fails
when a failure-notification call inside an `except` handler of
`_trigger_remediation` itself raises: the cycle then aborts early and only
the AlertEvents already handled were counted — see the counterexample.) -/
theorem C1_counters (cfg : MonitoringConfig) :
    (∀ w, Reachable cfg w → w.remediation_count ≤ w.alert_count)
    ∧ (∀ (o : Oracle) (os : OsSample) (m : SystemMetrics) (w w' : World),
         gatherMetrics os = .ok m →
         checkSystem o cfg os w = (w', none) →
         w'.alert_count = w.alert_count + (alertsTriggered cfg m).length)
    ∧ (∀ (o : Oracle) (it : String) (a : AlertContext) (w : World),
         (triggerRemediationMon o it a w).1.remediation_count
           = w.remediation_count
             + if isOkTrue (o.remediateRes w.nRem) then 1 else 0) :=
  ⟨fun w h => reachable_inv cfg w h,
   fun o os m w w' hg h => checkSystem_complete_alert o cfg os m w w' hg h,
   fun o it a w => trig_rem_count o it a w⟩

/-- C1 witness: the three parts applied at concrete inputs — the initial
state is reachable, and the Scenario A cycle (one AlertEvent, completing
normally) increments `alert_count` from 0 to 1. -/
theorem C1_counters_witness :
    World.init.remediation_count ≤ World.init.alert_count
    ∧ (⟨false, 0, 0, 1, 1, 1, 2, 1,
        [.notifyCall (alertMessage aCPU) .warning,
         .remediateCall "high_cpu" (buildContext aCPU),
         .notifyCall "Remediation triggered for high_cpu" .success]⟩
          : World).alert_count
        = World.init.alert_count + (alertsTriggered cfg90 mA).length
    ∧ (triggerRemediationMon okOracle "high_cpu" aCPU World.init).1.remediation_count
        = World.init.remediation_count
          + if isOkTrue (okOracle.remediateRes World.init.nRem) then 1 else 0 :=
  ⟨(C1_counters cfg90).1 World.init Reachable.init,
   (C1_counters cfg90).2.1 okOracle osA mA World.init _ gatherA checkA_eval,
   (C1_counters cfg90).2.2 okOracle "high_cpu" aCPU World.init⟩

/-- C1 counterexample: a concrete cycle in which two AlertEvents are
produced (CPU and memory both at 95 against thresholds of 90) but
`alert_count` increases by only 1: the remediation call for the CPU event
raises, and the failure notification sent by the `except` handler raises
too, so the exception escapes `_trigger_remediation`, aborts the
`for`-loop of `_check_thresholds` before the memory event, and surfaces as
`MonitoringError` from `check_system`. -/
theorem C1_counterexample :
    gatherMetrics osCM = Except.ok mCM
    ∧ (alertsTriggered cfg90 mCM).length = 2
    ∧ (checkSystem abortOracle cfg90 osCM World.init).1.alert_count
        = World.init.alert_count + 1
    ∧ (checkSystem abortOracle cfg90 osCM World.init).1.alert_count
        ≠ World.init.alert_count + (alertsTriggered cfg90 mCM).length := by
  refine ⟨gatherCM, ?_, ?_, ?_⟩
  · rw [alertsCM]
    rfl
  · rw [checkCM_eval]
    rfl
  · rw [checkCM_eval, alertsCM]
    decide

/-- C4: outcome handling of `_trigger_remediation` for one AlertEvent.
Truthy result: `remediation_count` is incremented and the success
notification is sent.  Falsy result without an exception:
`remediation_count` unchanged, a failure notification naming the issue type
is sent.  Exception from the remediation call: `remediation_count`
unchanged, a failure notification describing the error is sent, and the
remediation exception itself never propagates — the step's outcome is
`none` whenever that failure-notification call returns normally (anything
that does propagate is the notification call's own exception). -/
theorem C4_remediation_outcomes (o : Oracle) (it : String) (a : AlertContext)
    (w : World) :
    (o.remediateRes w.nRem = Except.ok true →
       (triggerRemediationMon o it a w).1.remediation_count
           = w.remediation_count + 1
       ∧ ∃ ns, (triggerRemediationMon o it a w).1.trace
           = w.trace ++ .remediateCall it (buildContext a)
               :: .notifyCall ("Remediation triggered for " ++ it) .success
               :: ns)
    ∧ (o.remediateRes w.nRem = Except.ok false →
       (triggerRemediationMon o it a w).1.remediation_count
           = w.remediation_count
       ∧ ∃ ns, (triggerRemediationMon o it a w).1.trace
           = w.trace ++ .remediateCall it (buildContext a)
               :: .notifyCall ("Failed to trigger remediation for " ++ it)
                    .error :: ns)
    ∧ (∀ e, o.remediateRes w.nRem = Except.error e →
       (triggerRemediationMon o it a w).1.remediation_count
           = w.remediation_count
       ∧ (triggerRemediationMon o it a w).1.trace
           = w.trace ++ [.remediateCall it (buildContext a),
               .notifyCall (remediationFailureMsg it e) .error]
       ∧ (triggerRemediationMon o it a w).2
           = match o.notifyRes w.nNotify with
             | .ok _ => none
             | .error e2 => some e2) := by
  refine ⟨?_, ?_, ?_⟩
  · intro h
    rw [trig_spec_true o it a w h]
    cases h2 : o.notifyRes w.nNotify with
    | ok b => exact ⟨by simp, ⟨[], by simp⟩⟩
    | error e =>
      exact ⟨by simp,
        ⟨[.notifyCall (remediationFailureMsg it e) .error], by simp⟩⟩
  · intro h
    rw [trig_spec_false o it a w h]
    cases h2 : o.notifyRes w.nNotify with
    | ok b => exact ⟨by simp, ⟨[], by simp⟩⟩
    | error e =>
      exact ⟨by simp,
        ⟨[.notifyCall (remediationFailureMsg it e) .error], by simp⟩⟩
  · intro e h
    rw [trig_spec_error o it a w e h]
    exact ⟨by simp, by simp, by simp⟩

/-- C4 witness: the three branches applied to a CPU AlertEvent against
ports that respectively succeed, decline, and raise
`RemediationError("backend down")`. -/
theorem C4_remediation_outcomes_witness :
    (triggerRemediationMon okOracle "high_cpu" aCPU World.init).1.remediation_count
        = World.init.remediation_count + 1
    ∧ (triggerRemediationMon declineOracle "high_cpu" aCPU World.init).1.remediation_count
        = World.init.remediation_count
    ∧ (triggerRemediationMon faultOracle "high_cpu" aCPU World.init).1.remediation_count
        = World.init.remediation_count
    ∧ (triggerRemediationMon faultOracle "high_cpu" aCPU World.init).2 = none :=
  ⟨((C4_remediation_outcomes okOracle "high_cpu" aCPU World.init).1 rfl).1,
   ((C4_remediation_outcomes declineOracle "high_cpu" aCPU World.init).2.1 rfl).1,
   ((C4_remediation_outcomes faultOracle "high_cpu" aCPU World.init).2.2
      (.remediationError "backend down") rfl).1,
   by
     rw [((C4_remediation_outcomes faultOracle "high_cpu" aCPU World.init).2.2
       (.remediationError "backend down") rfl).2.2]
     rfl⟩

/-- C3: notification-failure isolation.  (1) The whole threshold-processing
pass is insensitive to the outcome of the alert-message notify call of the
first AlertEvent (the call whose index is the cycle's current Slack call
counter): two port behaviours differing only in that one response produce
identical results — the exception is caught at the call site and changes
nothing.  (2) For every AlertEvent, the remediation request is issued
immediately after the alert notify call regardless of that call's outcome.
(3) Concretely, with a Slack stub that throws only on its first call and all
three metrics over threshold, the cycle completes, all three remediation
requests run in order, and all three alert notifications are attempted. -/
theorem C3_notification_isolation :
    (∀ (o₁ o₂ : Oracle) (cfg : MonitoringConfig) (m : SystemMetrics)
       (w : World),
       (∀ k, k ≠ w.nNotify → o₁.notifyRes k = o₂.notifyRes k) →
       (∀ k, o₁.remediateRes k = o₂.remediateRes k) →
       checkThresholds o₁ cfg m w = checkThresholds o₂ cfg m w)
    ∧ (∀ (o : Oracle) (a : AlertContext) (w : World), ∃ ns,
         (handleThresholdAlert o a w).1.trace
           = w.trace ++ .notifyCall (alertMessage a) .warning
               :: .remediateCall ("high_" ++ pyLower a.metric_name)
                    (buildContext a) :: ns
         ∧ remCallSeq ns = [])
    ∧ ((checkThresholds throwFirstNotifyOracle cfg90 mE World.init).2 = none
       ∧ (checkThresholds throwFirstNotifyOracle cfg90 mE
            World.init).1.remediation_count = 3
       ∧ remCallSeq (checkThresholds throwFirstNotifyOracle cfg90 mE
            World.init).1.trace = ["high_cpu", "high_memory", "high_disk"]
       ∧ (notifySeq .warning (checkThresholds throwFirstNotifyOracle cfg90 mE
            World.init).1.trace).length = 3) := by
  refine ⟨?_, ?_, ?_⟩
  · intro o₁ o₂ cfg m w hn hr
    have hAg : Oracle.AgreeFrom (w.nNotify + 1) o₁ o₂ :=
      ⟨fun k hk => hn k (by omega), hr⟩
    unfold checkThresholds
    cases hl : alertsTriggered cfg m with
    | nil => rfl
    | cons a rest =>
      unfold processAlerts
      rw [handle_agree o₁ o₂ a w hAg]
      rcases hh : handleThresholdAlert o₂ a w with ⟨w1, ex⟩
      have hge := handle_nNotify_ge o₂ a w
      rw [hh] at hge
      simp only at hge
      cases ex with
      | none =>
        simp only
        exact process_agree o₁ o₂ rest w1
          (agreeFrom_mono o₁ o₂ (by omega) hAg)
      | some e => rfl
  · exact handle_trace_form
  · rw [checkThP4_eval]
    refine ⟨rfl, rfl, rfl, ?_⟩
    simp [notifySeq]

/-- C3 witness: the isolation part applied to the P4 stub (throws only on
Slack call 0) against the always-succeeding ports, on the Scenario E
sample — the two cycles are identical. -/
theorem C3_notification_isolation_witness :
    checkThresholds throwFirstNotifyOracle cfg90 mE World.init
      = checkThresholds okOracle cfg90 mE World.init :=
  C3_notification_isolation.1 throwFirstNotifyOracle okOracle cfg90 mE
    World.init
    (fun k hk => by
      have hk0 : k ≠ 0 := hk
      simp [throwFirstNotifyOracle, okOracle, hk0])
    (fun k => rfl)

/-- C5: event ordering.  The AlertEvents produced from one sample are always
in the fixed order CPU, then memory, then disk (strictly increasing
`metricRank`, whichever subset of metrics exceeds its threshold), and a cycle
that completes without a propagating exception issues its remediation
requests in exactly that per-event order. -/
theorem C5_event_ordering (cfg : MonitoringConfig) (m : SystemMetrics) :
    List.Pairwise (fun x y => metricRank x.metric_name < metricRank y.metric_name)
      (alertsTriggered cfg m)
    ∧ ∀ (o : Oracle) (w w' : World),
        checkThresholds o cfg m w = (w', none) →
        remCallSeq w'.trace = remCallSeq w.trace
          ++ (alertsTriggered cfg m).map
               (fun a => "high_" ++ pyLower a.metric_name) := by
  constructor
  · unfold alertsTriggered
    split_ifs <;> simp [List.pairwise_cons, metricRank]
  · intro o w w' h
    exact processAlerts_complete_remCallSeq o (alertsTriggered cfg m) w w' h

/-- C5 witness: applied to the Scenario E sample (all three metrics at 95
against thresholds of 90) — the three remediation requests are issued in the
order high_cpu, high_memory, high_disk. -/
theorem C5_event_ordering_witness :
    List.Pairwise (fun x y => metricRank x.metric_name < metricRank y.metric_name)
      (alertsTriggered cfg90 mE)
    ∧ remCallSeq (⟨false, 0, 0, 0, 3, 3, 6, 3,
        [.notifyCall (alertMessage aCpuE) .warning,
         .remediateCall "high_cpu" (buildContext aCpuE),
         .notifyCall "Remediation triggered for high_cpu" .success,
         .notifyCall (alertMessage aMemE) .warning,
         .remediateCall "high_memory" (buildContext aMemE),
         .notifyCall "Remediation triggered for high_memory" .success,
         .notifyCall (alertMessage aDiskE) .warning,
         .remediateCall "high_disk" (buildContext aDiskE),
         .notifyCall "Remediation triggered for high_disk" .success]⟩
          : World).trace
        = remCallSeq World.init.trace
          ++ (alertsTriggered cfg90 mE).map
               (fun a => "high_" ++ pyLower a.metric_name) :=
  ⟨(C5_event_ordering cfg90 mE).1,
   (C5_event_ordering cfg90 mE).2 okOracle World.init _ checkThE_eval⟩

/-- C6: Scenario A.  With cpu 95.0, memory 40.0, disk 50.0 and all
thresholds at 90, the cycle produces exactly one AlertEvent; exactly one
warning notification is sent, with text
"High CPU usage detected: 95.0% (threshold: 90%)" (the current value
rendered with one decimal place, the integer threshold as-is); and exactly
one remediation request is issued, with issue type exactly "high_cpu"
(built as "high_" plus the lowercased metric name) and context key
"cpu_percent". -/
theorem C6_scenario_A :
    gatherMetrics osA = Except.ok mA
    ∧ (alertsTriggered cfg90 mA).length = 1
    ∧ notifySeq .warning (checkSystemWrapper okOracle cfg90 osA World.init).trace
        = ["High CPU usage detected: 95.0% (threshold: 90%)"]
    ∧ remCallSeq (checkSystemWrapper okOracle cfg90 osA World.init).trace
        = ["high_cpu"]
    ∧ "high_" ++ pyLower aCPU.metric_name = "high_cpu"
    ∧ (buildContext aCPU).percentKey = "cpu_percent" := by
  have hw : checkSystemWrapper okOracle cfg90 osA World.init
      = ⟨false, 0, 0, 1, 1, 1, 2, 1,
         [.notifyCall (alertMessage aCPU) .warning,
          .remediateCall "high_cpu" (buildContext aCPU),
          .notifyCall "Remediation triggered for high_cpu" .success]⟩ := by
    unfold checkSystemWrapper
    rw [checkA_eval]
  refine ⟨gatherA, by rw [alertsA]; rfl, ?_, ?_, by decide, by decide⟩
  · rw [hw]
    simp [notifySeq, alertMessageA]
  · rw [hw]
    rfl

/-- C7: sampling-failure containment.  If any of the four OS reads fails,
`_gather_metrics` yields no partial `SystemMetrics` (the whole call fails
with `MonitoringError`); `check_system` then raises `MonitoringError`
having performed no threshold evaluation and no alert or remediation (only
`check_count` moved, no port call was made); the scheduled wrapper catches
the error, reports it best-effort with a single error notification, and
returns normally — and since the wrapper is total, the next cycle still
runs and bumps `check_count` again. -/
theorem C7_sampling_failure (o : Oracle) (cfg : MonitoringConfig)
    (os os2 : OsSample) (w : World)
    (h : (∃ s, os.cpu = .error s) ∨ (∃ s, os.memory = .error s)
       ∨ (∃ s, os.disk = .error s) ∨ (∃ s, os.hostname = .error s)) :
    (∃ msg, gatherMetrics os
        = .error (.monitoringError ("Failed to gather system metrics: " ++ msg)))
    ∧ (∀ e, gatherMetrics os = .error e →
         checkSystem o cfg os w
           = ({ w with check_count := w.check_count + 1 },
              some (.monitoringError ("System check failed: " ++ e.str)))
         ∧ checkSystemWrapper o cfg os w
           = { w with check_count := w.check_count + 1,
                      nNotify := w.nNotify + 1,
                      trace := w.trace ++ [.notifyCall ("System check failed: "
                        ++ ("System check failed: " ++ e.str)) .error] })
    ∧ (checkSystemWrapper o cfg os2 (checkSystemWrapper o cfg os w)).check_count
        = w.check_count + 2 := by
  refine ⟨?_, ?_, ?_⟩
  · rcases h with ⟨s, hs⟩ | ⟨s, hs⟩ | ⟨s, hs⟩ | ⟨s, hs⟩ <;>
      unfold gatherMetrics <;>
      rcases hc : os.cpu with s1 | c <;> rcases hm : os.memory with s2 | mv <;>
      rcases hd : os.disk with s3 | d <;>
      rcases hh2 : os.hostname with s4 | hn <;>
      simp_all
  · intro e he
    have h1 : checkSystem o cfg os w
        = ({ w with check_count := w.check_count + 1 },
           some (.monitoringError ("System check failed: " ++ e.str))) := by
      unfold checkSystem
      rw [he]
    refine ⟨h1, ?_⟩
    unfold checkSystemWrapper
    rw [h1]
    rfl
  · rw [wrapper_check, wrapper_check]

/-- C7 witness: a sample whose CPU read raises.  The cycle raises
`MonitoringError` with only `check_count` moved, and the following cycle
still runs. -/
theorem C7_sampling_failure_witness :
    checkSystem okOracle cfg90 osFail World.init
        = ({ World.init with check_count := World.init.check_count + 1 },
           some (.monitoringError ("System check failed: "
             ++ (Exn.monitoringError
                  "Failed to gather system metrics: psutil raised").str)))
    ∧ (checkSystemWrapper okOracle cfg90 osA
         (checkSystemWrapper okOracle cfg90 osFail World.init)).check_count
        = World.init.check_count + 2 := by
  have h := C7_sampling_failure okOracle cfg90 osFail osA World.init
    (Or.inl ⟨"psutil raised", rfl⟩)
  exact ⟨(h.2.1 _ rfl).1, h.2.2⟩

/-- C9: the bundled `RemediationClient.trigger_remediation` never returns
`False`: for every HTTP behaviour it returns `True` or raises (in
particular, a 2xx response whose JSON body carries `success: false` ends in
a raised, wrapped `RemediationError`, as the concrete `envDeclined` run
shows).  Consequently, against a remediation port that never returns
`False`, the orchestrator's falsy-result branch is unreachable: no
`"Failed to trigger remediation for ..."` notification is ever added to the
trace. -/
theorem C9_client_never_false :
    (∀ (env : ℕ → PostOutcome) (it : String) (t : ℤ),
       clientTriggerRemediation env it t ≠ .ok false)
    ∧ (∀ (it : String) (t : ℤ),
       clientTriggerRemediation envDeclined it t
         = .error (.clientRemediationError
             "Unexpected error during remediation: Remediation failed: declined"))
    ∧ (∀ (o : Oracle) (it : String) (a : AlertContext) (w : World),
       (∀ k, o.remediateRes k ≠ .ok false) →
       falsyNotifyCount it (triggerRemediationMon o it a w).1.trace
         = falsyNotifyCount it w.trace) := by
  refine ⟨?_, ?_, ?_⟩
  · intro env it t hc
    unfold clientTriggerRemediation at hc
    rcases h0 : innerAttempt (env 0) true with b | e | _ <;> rw [h0] at hc
    · rw [innerAttempt_ret_true (env 0) true b h0] at hc
      exact Except.noConfusion hc (fun heq => Bool.noConfusion heq)
    · exact Except.noConfusion hc
    · rcases h1 : innerAttempt (env 1) false with b | e | _ <;> rw [h1] at hc
      · rw [innerAttempt_ret_true (env 1) false b h1] at hc
        exact Except.noConfusion hc (fun heq => Bool.noConfusion heq)
      · exact Except.noConfusion hc
      · exact Except.noConfusion hc
  · intro it t
    rfl
  · intro o it a w hno
    rcases h2 : o.remediateRes w.nRem with e | b
    · rw [trig_spec_error o it a w e h2]
      simp only [falsyNotifyCount_append, falsyNotifyCount]
      rw [if_neg (remediationFailureMsg_ne_falsy it e)]
      omega
    · cases b
      · exact absurd h2 (hno w.nRem)
      · rw [trig_spec_true o it a w h2]
        cases h3 : o.notifyRes w.nNotify with
        | ok b2 =>
          simp only [falsyNotifyCount_append, falsyNotifyCount]
          omega
        | error e =>
          simp only [falsyNotifyCount_append, falsyNotifyCount]
          rw [if_neg (remediationFailureMsg_ne_falsy it e)]
          omega

/-- C9 witness: the falsy-branch-unreachable part applied against the port
that always raises (which never returns a falsy result), on a concrete CPU
AlertEvent. -/
theorem C9_client_never_false_witness :
    falsyNotifyCount "high_cpu"
        (triggerRemediationMon faultOracle "high_cpu" aCPU World.init).1.trace
      = falsyNotifyCount "high_cpu" World.init.trace :=
  C9_client_never_false.2.2 faultOracle "high_cpu" aCPU World.init
    (fun k => by simp [faultOracle])

/-- C8: calling `start()` while the monitor is already running returns
immediately (after only a logged warning): no second scheduling of the
periodic check, no extra immediate check, no second monitoring thread, no
duplicate startup notification, and state and counters unchanged. -/
theorem C8_start_idempotent (o : Oracle) (cfg : MonitoringConfig)
    (os : OsSample) (n : ℕ) (w : World) (h : w.running = true) :
    start o cfg os n w = w := by
  unfold start
  simp [h]

/-- C8 witness: the theorem applied to a concrete running monitor state. -/
theorem C8_start_idempotent_witness :
    wRunning.running = true ∧ start okOracle cfg90 osA 8 wRunning = wRunning :=
  ⟨rfl, C8_start_idempotent okOracle cfg90 osA 8 wRunning rfl⟩

/-- C10: every invocation of `check_system` increments `check_count` by
exactly one — also through the scheduled wrapper, and also on cycles whose
sampling fails (the increment precedes `_gather_metrics`, and the statement
holds for every `OsSample`, including failing ones); the counter never
decreases. -/
theorem C10_check_count (o : Oracle) (cfg : MonitoringConfig) (os : OsSample)
    (w : World) :
    (checkSystem o cfg os w).1.check_count = w.check_count + 1
    ∧ (checkSystemWrapper o cfg os w).check_count = w.check_count + 1
    ∧ w.check_count ≤ (checkSystem o cfg os w).1.check_count := by
  refine ⟨checkSystem_check o cfg os w, wrapper_check o cfg os w, ?_⟩
  rw [checkSystem_check o cfg os w]
  omega


end Eribot
